import Mathlib

/-!
Shallow embedding of the insertable-streams video-processing transform
stages:

* `WebGPUTransform` (webgpu-transform source file): async WebGPU stage with
  `init` / `transform` / `destroy`.
* `NullTransform`, `DropTransform`, `DelayTransform`, `CropTransform`
  (js/simple-transforms.js).

Frames are modelled with an `id` field standing for JavaScript object
identity, so that releasing (`close`) and enqueuing can be attributed to a
particular frame object.  JavaScript numbers are modelled as `ℚ`.
Each `transform` call returns the trace of observable actions it performed
(frame closes, sink enqueues, surface reconfigurations, GPU submissions),
in program order.  JavaScript `TypeError`s raised by calling a method on
`null` are modelled with `Except JSError`; a raised error aborts the call.
-/

namespace VideoProcessing

/-- The visible region of a frame (`frame.visibleRegion`): left/top offset
plus width/height, all JavaScript numbers. -/
structure VisibleRegion where
  left : ℚ
  top : ℚ
  width : ℚ
  height : ℚ
deriving DecidableEq

/-- A `VideoFrame`: object identity `id`, `timestamp`, display dimensions
and visible region. -/
structure Frame where
  id : Nat
  timestamp : ℚ
  displayWidth : Nat
  displayHeight : Nat
  visibleRegion : VisibleRegion
deriving DecidableEq

/-- Observable actions a transform stage can perform during one call. -/
inductive Action where
  /-- `webGPUNotSupported()` user alert. -/
  | alertNotSupported
  /-- `f.close()` on the frame object with this id. -/
  | close (id : Nat)
  /-- `imageBitmap.close()`. -/
  | closeBitmap
  /-- `controller.enqueue(f)`. -/
  | enqueue (f : Frame)
  /-- `this.context_.configure(...)` inside `setSize` (surface
  reconfiguration), after the canvas was resized to `w × h`. -/
  | configure (w h : Nat)
  /-- `this.device_.createTexture(...)` for a `w × h` per-frame texture. -/
  | createTexture (w h : Nat)
  /-- `this.device_.queue.copyImageBitmapToTexture(...)`. -/
  | copyToTexture
  /-- `this.device_.queue.submit(...)`. -/
  | submit
  /-- `videoTexture.destroy()`. -/
  | destroyTexture
  /-- `this.verticesBuffer_.destroy()`. -/
  | destroyBuffer
  /-- `await new Promise(resolve => setTimeout(resolve, ms))`. -/
  | wait (ms : Nat)
deriving DecidableEq

/-- A JavaScript exception: calling a method on `null`. -/
inductive JSError where
  | typeError
deriving DecidableEq

/-- The frames passed to `controller.enqueue` in a trace, in order. -/
def enqueuedFrames (acts : List Action) : List Frame :=
  acts.filterMap fun a =>
    match a with
    | Action.enqueue f => some f
    | _ => none

/-- Does this action consume the frame object with id `fid` (either by
enqueuing it to the sink or by closing it)? -/
def consumes (fid : Nat) : Action → Bool
  | Action.enqueue f => f.id == fid
  | Action.close i => i == fid
  | _ => false

/-- How many times a trace consumes the frame object with id `fid`. -/
def consumeCount (fid : Nat) (acts : List Action) : Nat :=
  (acts.filter (consumes fid)).length

/-- Is this action a surface reconfiguration (`context_.configure`)? -/
def isConfigure : Action → Bool
  | Action.configure _ _ => true
  | _ => false

/-- Number of surface reconfigurations in a trace. -/
def configureCount (acts : List Action) : Nat :=
  (acts.filter isConfigure).length

/-! ## Simple transforms (js/simple-transforms.js) -/

/-- `NullTransform.transform`: `controller.enqueue(frame)`. -/
def NullTransform.transform (frame : Frame) : List Action :=
  [Action.enqueue frame]

/-- `DropTransform.transform`: `Math.random()` is passed in as `rand`;
`if (rand < 0.5) controller.enqueue(frame) else frame.close()`. -/
def DropTransform.transform (frame : Frame) (rand : ℚ) : List Action :=
  if rand < 1/2 then [Action.enqueue frame] else [Action.close frame.id]

/-- `DelayTransform.transform`: await a 100 ms timeout, then
`controller.enqueue(frame)`. -/
def DelayTransform.transform (frame : Frame) : List Action :=
  [Action.wait 100, Action.enqueue frame]

/-! ## CropTransform (js/simple-transforms.js)

`Math.sin`, `Math.cos` and `Math.PI` are the JavaScript float builtins;
they are modelled as parameters (`MathBuiltins`) since only their types
matter to the claims under scrutiny. -/

/-- JavaScript `Math` builtins used by `CropTransform.transform`. -/
structure MathBuiltins where
  sin : ℚ → ℚ
  cos : ℚ → ℚ
  pi : ℚ

/-- JavaScript truthiness of a nullable number: `null` and `0` are falsy. -/
def jsTruthy : Option ℚ → Bool
  | none => false
  | some x => decide (x ≠ 0)

/-- A nullable JavaScript number used in arithmetic: `null` coerces to 0. -/
def jsNumber : Option ℚ → ℚ
  | none => 0
  | some x => x

/-- The state of a `CropTransform` instance: `this.firstTimestamp_`,
initialized to `null` by the constructor. -/
structure CropTransform where
  firstTimestamp_ : Option ℚ
deriving DecidableEq

/-- `new CropTransform()`. -/
def CropTransform.new : CropTransform := ⟨none⟩

/-- The `if (!this.firstTimestamp_) { this.firstTimestamp_ = timestamp; }`
update at the top of `CropTransform.transform`.  Note the JavaScript falsy
test: a stored `0` is overwritten just like `null`. -/
def cropFirstTimestampUpdate (ft : Option ℚ) (t : ℚ) : Option ℚ :=
  if jsTruthy ft then ft else some t

/-- The cropped `VideoFrame` built by `CropTransform.transform`: same
source frame (timestamp inherited, fresh object id), visible region of
half the source width/height positioned by `sin`/`cos` of the loop
parameter. -/
def CropTransform.croppedFrame (B : MathBuiltins) (loop : ℚ) (frame : Frame)
    (freshId : Nat) : Frame :=
  let left := (B.sin (B.pi / 2 * loop) + 1) / 2 * frame.visibleRegion.width / 2
  let top := (B.cos (B.pi / 2 * loop) + 1) / 2 * frame.visibleRegion.height / 2
  { frame with
    id := freshId,
    visibleRegion :=
      ⟨left, top, frame.visibleRegion.width / 2, frame.visibleRegion.height / 2⟩ }

/-- `CropTransform.transform(frame, controller)`: update
`firstTimestamp_`, compute `loop = (timestamp - firstTimestamp_)/4000000`,
build the cropped frame, close the input, enqueue the cropped frame. -/
def CropTransform.transform (B : MathBuiltins) (s : CropTransform)
    (frame : Frame) (freshId : Nat) : CropTransform × List Action :=
  let timestamp := frame.timestamp
  let ft := cropFirstTimestampUpdate s.firstTimestamp_ timestamp
  let loop := (timestamp - jsNumber ft) / 4000000
  let croppedFrame := CropTransform.croppedFrame B loop frame freshId
  (⟨ft⟩, [Action.close frame.id, Action.enqueue croppedFrame])

/-- Feed a list of frames (each with a fresh id for its derived frame)
through one `CropTransform` instance, collecting the trace. -/
def CropTransform.run (B : MathBuiltins) (s : CropTransform) :
    List (Frame × Nat) → CropTransform × List Action
  | [] => (s, [])
  | (f, fid) :: rest =>
    let step := CropTransform.transform B s f fid
    let tail := CropTransform.run B step.1 rest
    (tail.1, step.2 ++ tail.2)

/-! ## WebGPUTransform (webgpu-transform source file) -/

/-- The canvas (`OffscreenCanvas`): its current width/height. -/
structure Canvas where
  width : Nat
  height : Nat
deriving DecidableEq

/-- Handle for the `gpupresent` canvas context. -/
inductive GPUContext | handle
deriving DecidableEq

/-- Handle for the logical GPU device. -/
inductive GPUDevice | handle
deriving DecidableEq

/-- Handle for the compiled render pipeline. -/
inductive RenderPipeline | handle
deriving DecidableEq

/-- Handle for the static vertex buffer. -/
inductive GPUBuffer | handle
deriving DecidableEq

/-- Handle for the sampler. -/
inductive GPUSampler | handle
deriving DecidableEq

/-- The fields of a `WebGPUTransform` instance.  `null` (or a falsy
request result, or a field not yet assigned) is `none`. -/
structure WebGPUTransform where
  canvas_ : Option Canvas
  context_ : Option GPUContext
  device_ : Option GPUDevice
  renderPipeline_ : Option RenderPipeline
  verticesBuffer_ : Option GPUBuffer
  sampler_ : Option GPUSampler
deriving DecidableEq

/-- `new WebGPUTransform()`: the constructor nulls out `canvas_`,
`device_`, `renderPipeline_` and `verticesBuffer_`; `context_` and
`sampler_` are not yet assigned (also falsy). -/
def WebGPUTransform.new : WebGPUTransform :=
  { canvas_ := none, context_ := none, device_ := none,
    renderPipeline_ := none, verticesBuffer_ := none, sampler_ := none }

/-- The environment `init` runs against: whether
`canvas.getContext('gpupresent')`, `navigator.gpu.requestAdapter()` and
`adapter.requestDevice()` each return a truthy value. -/
structure GPUEnv where
  contextAvailable : Bool
  adapterAvailable : Bool
  deviceAvailable : Bool
deriving DecidableEq

/-- `WebGPUTransform.init()`: create the 1×1 canvas; bail out with the
unsupported alert if the context, adapter or device is unavailable;
otherwise create the vertex buffer, render pipeline and sampler and store
the device. -/
def WebGPUTransform.init (env : GPUEnv) (s : WebGPUTransform) :
    WebGPUTransform × List Action :=
  let s := { s with canvas_ := some ⟨1, 1⟩ }
  if !env.contextAvailable then
    ({ s with context_ := none }, [Action.alertNotSupported])
  else
    let s := { s with context_ := some GPUContext.handle }
    if !env.adapterAvailable then
      (s, [Action.alertNotSupported])
    else if !env.deviceAvailable then
      (s, [Action.alertNotSupported])
    else
      ({ s with
          device_ := some GPUDevice.handle,
          verticesBuffer_ := some GPUBuffer.handle,
          renderPipeline_ := some RenderPipeline.handle,
          sampler_ := some GPUSampler.handle }, [])

/-- The dimension comparison guarding `setSize` in `transform`:
`this.canvas_.width !== width || this.canvas_.height !== height`. -/
def needsResize (canvas : Canvas) (frame : Frame) : Bool :=
  canvas.width != frame.displayWidth || canvas.height != frame.displayHeight

/-- The output `VideoFrame` built from the canvas at the end of
`transform`: `new VideoFrame(this.canvas_, {timestamp})`. -/
def outputFrame (canvas' : Canvas) (timestamp : ℚ) (freshId : Nat) : Frame :=
  { id := freshId, timestamp := timestamp,
    displayWidth := canvas'.width, displayHeight := canvas'.height,
    visibleRegion := ⟨0, 0, (canvas'.width : ℚ), (canvas'.height : ℚ)⟩ }

/-- `WebGPUTransform.transform(frame, controller)`.  The disabled path
(`!this.device_ || !this.canvas_`) closes the frame and returns.  The
enabled path resizes the canvas and reconfigures the surface when the
frame's display dimensions differ from the canvas dimensions, creates a
per-frame texture, copies the frame into it via an intermediate bitmap,
builds the bind group (a method call on `renderPipeline_`), captures the
timestamp, closes the input frame, encodes and submits the render pass
(a method call on `context_`), enqueues a new `VideoFrame` built from the
canvas with the captured timestamp, and destroys the per-frame texture.
A method call on a `null` field raises a `TypeError` which aborts the
call. -/
def WebGPUTransform.transform (s : WebGPUTransform) (frame : Frame)
    (freshId : Nat) : Except JSError (WebGPUTransform × List Action) :=
  if s.device_.isNone || s.canvas_.isNone then
    Except.ok (s, [Action.close frame.id])
  else
    match s.canvas_ with
    | none => Except.error JSError.typeError
    | some canvas =>
      let width := frame.displayWidth
      let height := frame.displayHeight
      match s.context_, s.renderPipeline_ with
      | some _, some _ =>
        let canvas' := if needsResize canvas frame then Canvas.mk width height else canvas
        let configActs :=
          if needsResize canvas frame then [Action.configure width height] else []
        let s' := { s with canvas_ := some canvas' }
        Except.ok (s',
          configActs ++
          [Action.createTexture width height, Action.copyToTexture,
           Action.closeBitmap, Action.close frame.id, Action.submit,
           Action.enqueue (outputFrame canvas' frame.timestamp freshId),
           Action.destroyTexture])
      | _, _ => Except.error JSError.typeError

/-- `WebGPUTransform.destroy()`: `this.verticesBuffer_.destroy()` — a
`TypeError` when `verticesBuffer_` is `null` — then `this.device_ = null`. -/
def WebGPUTransform.destroy (s : WebGPUTransform) :
    Except JSError (WebGPUTransform × List Action) :=
  match s.verticesBuffer_ with
  | none => Except.error JSError.typeError
  | some _ => Except.ok ({ s with device_ := none }, [Action.destroyBuffer])

/-- Feed a list of frames through one `WebGPUTransform` instance,
collecting the trace; a raised error aborts the run. -/
def WebGPUTransform.run (s : WebGPUTransform) :
    List (Frame × Nat) → Except JSError (WebGPUTransform × List Action)
  | [] => Except.ok (s, [])
  | (f, fid) :: rest =>
    match WebGPUTransform.transform s f fid with
    | Except.error e => Except.error e
    | Except.ok (s', acts) =>
      match WebGPUTransform.run s' rest with
      | Except.error e => Except.error e
      | Except.ok (s'', acts') => Except.ok (s'', acts ++ acts')

/-- The structural invariant of a `WebGPUTransform` established by
construction and `init` and preserved by `transform` and `destroy`: a
stored device implies a stored context and render pipeline. -/
def WebGPUInv (s : WebGPUTransform) : Prop :=
  s.device_.isSome → (s.context_.isSome ∧ s.renderPipeline_.isSome)

/-! ## The fragment program (wgslShaders.fragment)

The WGSL float builtins `sin`, `cos`, `distance` and `pow` are modelled as
parameters.  `FragmentInput` carries, besides the interpolated `fragUV`
the program declares, the time-varying quantities a per-frame shading
environment could in principle expose; the program's source declares no
binding for them and reads only `fragUV`. -/

/-- WGSL numeric builtins used by the fragment program. -/
structure ShaderBuiltins where
  sin : ℚ → ℚ
  cos : ℚ → ℚ
  distance : ℚ × ℚ → ℚ × ℚ → ℚ
  pow : ℚ → ℚ → ℚ

/-- One fragment invocation's environment: the `fragUV` input, plus
ambient time-varying data (not declared or read by the program). -/
structure FragmentInput where
  fragUV : ℚ × ℚ
  timestamp : ℚ
  frameIndex : Nat

/-- The texture-sampling coordinate (`quadrants`) computed by the fragment
program for one invocation: the swirl/rotation distortion of `fragUV`. -/
def fragmentSampleCoord (B : ShaderBuiltins) (input : FragmentInput) : ℚ × ℚ :=
  let fragUV := input.fragUV
  let angle := B.pow (max (1/2 - B.distance fragUV (1/2, 1/2)) 0 * 2) 2
  let rotation : ℚ × ℚ := (B.sin angle, B.cos angle)
  let fromCenter : ℚ × ℚ := (fragUV.1 - 1/2, fragUV.2 - 1/2)
  let rotatedPosition : ℚ × ℚ :=
    (fromCenter.1 * rotation.2 + fromCenter.2 * rotation.1 + 1/2,
     fromCenter.2 * rotation.2 - fromCenter.1 * rotation.1 + 1/2)
  (rotatedPosition.1 * 2, rotatedPosition.2 * 2)

/-! ## Concrete test fixtures -/

/-- The environment in which `init` fully succeeds. -/
def gpuEnvAll : GPUEnv := ⟨true, true, true⟩

/-- The stage state after a fully successful `init` on a fresh instance. -/
def initReadyState : WebGPUTransform :=
  (WebGPUTransform.init gpuEnvAll WebGPUTransform.new).1

/-- The stage state after `destroy` on `initReadyState`. -/
def destroyedState : WebGPUTransform := { initReadyState with device_ := none }

/-- A 640×480 frame with timestamp 0 and object id 0. -/
def frame0 : Frame := ⟨0, 0, 640, 480, ⟨0, 0, 640, 480⟩⟩

/-! ## Helper lemmas -/

/-- Evaluation of `transform` on a fully initialized state. -/
theorem transform_enabled_eq (cv : Canvas) (cx : GPUContext) (dv : GPUDevice)
    (rp : RenderPipeline) (vb : Option GPUBuffer) (sp : Option GPUSampler)
    (frame : Frame) (freshId : Nat) :
    WebGPUTransform.transform ⟨some cv, some cx, some dv, some rp, vb, sp⟩
        frame freshId =
      Except.ok
        (⟨some (if needsResize cv frame then
            Canvas.mk frame.displayWidth frame.displayHeight else cv),
          some cx, some dv, some rp, vb, sp⟩,
         (if needsResize cv frame then
            [Action.configure frame.displayWidth frame.displayHeight] else []) ++
         [Action.createTexture frame.displayWidth frame.displayHeight,
          Action.copyToTexture, Action.closeBitmap, Action.close frame.id,
          Action.submit,
          Action.enqueue (outputFrame
            (if needsResize cv frame then
              Canvas.mk frame.displayWidth frame.displayHeight else cv)
            frame.timestamp freshId),
          Action.destroyTexture]) := rfl

/-- Evaluation of `transform` on a disabled state (no device or no
canvas). -/
theorem transform_disabled_eq (s : WebGPUTransform) (frame : Frame)
    (freshId : Nat) (h : s.device_ = none ∨ s.canvas_ = none) :
    WebGPUTransform.transform s frame freshId =
      Except.ok (s, [Action.close frame.id]) := by
  unfold WebGPUTransform.transform
  rcases h with h | h <;> rw [h] <;> simp

/-- Counting filtered actions distributes over trace concatenation. -/
theorem filter_count_append (p : Action → Bool) (a b : List Action) :
    ((a ++ b).filter p).length = (a.filter p).length + (b.filter p).length := by
  rw [List.filter_append, List.length_append]

/-- A successful `transform` never raises and only ever rewrites the
`canvas_` field: context, device, render pipeline, vertex buffer and
sampler are preserved. -/
theorem transform_ok_fields (s s' : WebGPUTransform) (frame : Frame)
    (freshId : Nat) (acts : List Action)
    (h : WebGPUTransform.transform s frame freshId = Except.ok (s', acts)) :
    s'.context_ = s.context_ ∧ s'.device_ = s.device_ ∧
      s'.renderPipeline_ = s.renderPipeline_ ∧
      s'.verticesBuffer_ = s.verticesBuffer_ ∧ s'.sampler_ = s.sampler_ := by
  obtain ⟨cv, cx, dv, rp, vb, sp⟩ := s
  cases dv with
  | none =>
    rw [transform_disabled_eq _ frame freshId (Or.inl rfl)] at h
    injection h with h1
    rw [Prod.mk.injEq] at h1
    obtain ⟨h2, h3⟩ := h1
    subst h2
    exact ⟨rfl, rfl, rfl, rfl, rfl⟩
  | some dv =>
    cases cv with
    | none =>
      rw [transform_disabled_eq _ frame freshId (Or.inr rfl)] at h
      injection h with h1
      rw [Prod.mk.injEq] at h1
      obtain ⟨h2, h3⟩ := h1
      subst h2
      exact ⟨rfl, rfl, rfl, rfl, rfl⟩
    | some cv =>
      cases cx with
      | none => exact absurd h (by simp [WebGPUTransform.transform])
      | some cx =>
        cases rp with
        | none => exact absurd h (by simp [WebGPUTransform.transform])
        | some rp =>
          rw [transform_enabled_eq] at h
          injection h with h1
          rw [Prod.mk.injEq] at h1
          obtain ⟨h2, h3⟩ := h1
          subst h2
          exact ⟨rfl, rfl, rfl, rfl, rfl⟩

/-- The resize guard is false exactly when the canvas dimensions already
equal the frame's display dimensions. -/
theorem needsResize_false_iff (cv : Canvas) (f : Frame) :
    needsResize cv f = false ↔
      (cv.width = f.displayWidth ∧ cv.height = f.displayHeight) := by
  simp [needsResize]

/-- One enabled `transform` call reconfigures the surface exactly when the
canvas dimensions differ from the frame's display dimensions, and leaves
the canvas at the frame's display dimensions. -/
theorem transform_configure_char (cv : Canvas) (cx : GPUContext)
    (dv : GPUDevice) (rp : RenderPipeline) (vb : Option GPUBuffer)
    (sp : Option GPUSampler) (frame : Frame) (freshId : Nat) :
    ∃ s' acts,
      WebGPUTransform.transform ⟨some cv, some cx, some dv, some rp, vb, sp⟩
          frame freshId = Except.ok (s', acts) ∧
      configureCount acts =
        (if cv.width = frame.displayWidth ∧ cv.height = frame.displayHeight
         then 0 else 1) ∧
      s' = ⟨some ⟨frame.displayWidth, frame.displayHeight⟩, some cx, some dv,
        some rp, vb, sp⟩ := by
  refine ⟨_, _, transform_enabled_eq cv cx dv rp vb sp frame freshId, ?_, ?_⟩
  · unfold configureCount
    rw [filter_count_append]
    cases hnr : needsResize cv frame with
    | true =>
      have hne : ¬(cv.width = frame.displayWidth ∧
          cv.height = frame.displayHeight) := by
        intro hcontra
        have := (needsResize_false_iff cv frame).mpr hcontra
        rw [hnr] at this
        exact Bool.noConfusion this
      rw [if_neg hne]
      simp [isConfigure]
    | false =>
      have hcond := (needsResize_false_iff cv frame).mp hnr
      rw [if_pos hcond]
      simp [isConfigure]
  · cases hnr : needsResize cv frame with
    | true => simp
    | false =>
      obtain ⟨h1, h2⟩ := (needsResize_false_iff cv frame).mp hnr
      obtain ⟨cw, ch⟩ := cv
      simp at h1 h2
      simp [h1, h2]

/-- Running a sequence of frames whose display dimensions all equal the
already-configured canvas dimensions performs zero reconfigurations. -/
theorem run_same_size_zero (w h : Nat) :
    ∀ (frames : List (Frame × Nat)) (cx : GPUContext) (dv : GPUDevice)
      (rp : RenderPipeline) (vb : Option GPUBuffer) (sp : Option GPUSampler)
      (s' : WebGPUTransform) (acts : List Action),
      (∀ p ∈ frames, (p.1).displayWidth = w ∧ (p.1).displayHeight = h) →
      WebGPUTransform.run ⟨some ⟨w, h⟩, some cx, some dv, some rp, vb, sp⟩
          frames = Except.ok (s', acts) →
      configureCount acts = 0 := by
  intro frames
  induction frames with
  | nil =>
    intro cx dv rp vb sp s' acts hdims hrun
    unfold WebGPUTransform.run at hrun
    injection hrun with h1
    rw [Prod.mk.injEq] at h1
    rw [← h1.2]
    rfl
  | cons p rest ih =>
    intro cx dv rp vb sp s' acts hdims hrun
    obtain ⟨f, fid⟩ := p
    obtain ⟨hw, hh⟩ := hdims (f, fid) (List.mem_cons_self _ _)
    have hnr : needsResize ⟨w, h⟩ f = false := by
      rw [needsResize_false_iff]
      exact ⟨hw.symm, hh.symm⟩
    unfold WebGPUTransform.run at hrun
    rw [transform_enabled_eq, hnr] at hrun
    simp only [if_neg Bool.false_ne_true] at hrun
    cases hrest : WebGPUTransform.run
        ⟨some ⟨w, h⟩, some cx, some dv, some rp, vb, sp⟩ rest with
    | error e => rw [hrest] at hrun; exact absurd hrun (by simp)
    | ok q =>
      obtain ⟨s'', acts'⟩ := q
      rw [hrest] at hrun
      injection hrun with h1
      rw [Prod.mk.injEq] at h1
      rw [← h1.2]
      unfold configureCount
      rw [filter_count_append, filter_count_append]
      have htail := ih cx dv rp vb sp s'' acts'
        (fun q hq => hdims q (List.mem_cons_of_mem _ hq)) hrest
      unfold configureCount at htail
      rw [htail]
      simp [isConfigure]

/-- Folding the `firstTimestamp_` update from a non-null stored value:
a nonzero value persists; a stored zero behaves like null and ends up at
the first nonzero element of the rest (or 0 if there is none). -/
theorem foldl_upd_some (ts : List ℚ) : ∀ v : ℚ,
    ts.foldl cropFirstTimestampUpdate (some v) =
      some (if v = 0 then ((ts.find? fun x => decide (x ≠ 0)).getD 0) else v) := by
  induction ts with
  | nil =>
    intro v
    by_cases hv : v = 0 <;> simp [hv]
  | cons x xs ih =>
    intro v
    rw [List.foldl_cons]
    by_cases hv : v = 0
    · have h1 : cropFirstTimestampUpdate (some v) x = some x := by
        simp [cropFirstTimestampUpdate, jsTruthy, hv]
      rw [h1, ih x, if_pos hv]
      by_cases hx : x = 0
      · rw [if_pos hx]
        rw [List.find?_cons_of_neg _ (by simp [hx])]
      · rw [if_neg hx]
        rw [List.find?_cons_of_pos _ (by simp [hx])]
        simp
    · have h1 : cropFirstTimestampUpdate (some v) x = some v := by
        simp [cropFirstTimestampUpdate, jsTruthy, hv]
      rw [h1, ih v, if_neg hv, if_neg hv]

/-- Characterization of the stored `firstTimestamp_` after processing the
timestamps `pre` and then one more timestamp `t`: it is the first nonzero
timestamp among `pre ++ [t]`, or 0 (equivalently, the just-seen zero `t`)
when all of them are zero. -/
theorem crop_ft_char (pre : List ℚ) (t : ℚ) :
    cropFirstTimestampUpdate (pre.foldl cropFirstTimestampUpdate none) t =
      some (((pre ++ [t]).find? fun x => decide (x ≠ 0)).getD 0) := by
  cases pre with
  | nil =>
    by_cases ht : t = 0 <;>
      simp [cropFirstTimestampUpdate, jsTruthy, List.find?, ht]
  | cons x xs =>
    rw [List.foldl_cons]
    have h0 : cropFirstTimestampUpdate none x = some x := by
      simp [cropFirstTimestampUpdate, jsTruthy]
    rw [h0, foldl_upd_some, List.cons_append]
    by_cases hx : x = 0
    · rw [if_pos hx]
      rw [List.find?_cons_of_neg _ (by simp [hx]), List.find?_append]
      cases hfind : xs.find? (fun x => decide (x ≠ 0)) with
      | none =>
        by_cases ht : t = 0 <;>
          simp [cropFirstTimestampUpdate, jsTruthy, List.find?, ht]
      | some w =>
        have hw : w ≠ 0 := by simpa using List.find?_some hfind
        simp [cropFirstTimestampUpdate, jsTruthy, hw]
    · rw [if_neg hx]
      rw [List.find?_cons_of_pos _ (by simp [hx])]
      simp [cropFirstTimestampUpdate, jsTruthy, hx]

/-- The `firstTimestamp_` held by a `CropTransform` after a run equals the
fold of the per-frame update over the frames' timestamps. -/
theorem crop_run_state (B : MathBuiltins) : ∀ (fs : List (Frame × Nat))
    (s : CropTransform),
    (CropTransform.run B s fs).1.firstTimestamp_ =
      (fs.map fun p => p.1.timestamp).foldl cropFirstTimestampUpdate
        s.firstTimestamp_ := by
  intro fs
  induction fs with
  | nil => intro s; rfl
  | cons p rest ih =>
    intro s
    obtain ⟨f, fid⟩ := p
    rw [List.map_cons, List.foldl_cons]
    exact ih ⟨cropFirstTimestampUpdate s.firstTimestamp_ f.timestamp⟩

/-! ## Theorems -/

/-- **C10.** Calling `WebGPUTransform.transform` before `init` has ever
been called is well-defined: the constructor initializes the device and
canvas fields to `null`, so `transform` takes the disabled branch,
releases the input frame exactly once, and enqueues nothing — it does not
touch uninitialized GPU state. -/
theorem transform_before_init_noop :
    WebGPUTransform.new.device_ = none ∧ WebGPUTransform.new.canvas_ = none ∧
    ∀ (frame : Frame) (freshId : Nat),
      WebGPUTransform.transform WebGPUTransform.new frame freshId =
        Except.ok (WebGPUTransform.new, [Action.close frame.id]) :=
  ⟨rfl, rfl, fun _ _ => rfl⟩

/-- **C3.** If `init` failed to acquire the graphics context, the adapter
or the device, every subsequent `transform` call releases the input frame
immediately and returns, enqueuing zero frames to the sink. -/
theorem transform_after_failed_init (env : GPUEnv)
    (h : env.contextAvailable = false ∨ env.adapterAvailable = false ∨
      env.deviceAvailable = false)
    (frame : Frame) (freshId : Nat) :
    WebGPUTransform.transform (WebGPUTransform.init env WebGPUTransform.new).1
        frame freshId =
      Except.ok ((WebGPUTransform.init env WebGPUTransform.new).1,
        [Action.close frame.id]) := by
  rcases env with ⟨c, a, d⟩
  cases c <;> cases a <;> cases d <;> first
    | rfl
    | exact absurd h (by decide)

/-- Witness for `transform_after_failed_init`: the adapter-unavailable
environment, with a concrete frame. -/
theorem transform_after_failed_init_witness :
    WebGPUTransform.transform
        (WebGPUTransform.init ⟨true, false, true⟩ WebGPUTransform.new).1 frame0 1 =
      Except.ok ((WebGPUTransform.init ⟨true, false, true⟩ WebGPUTransform.new).1,
        [Action.close frame0.id]) :=
  transform_after_failed_init ⟨true, false, true⟩ (Or.inr (Or.inl rfl)) frame0 1

/-- **C6 (code bug).** On a stage whose `init` failed before the vertex
buffer was created (here: no adapter), `destroy` is not safe: it calls
`destroy()` on the null `verticesBuffer_`, raising a `TypeError`. -/
theorem destroy_after_failed_init_type_error :
    WebGPUTransform.destroy
        (WebGPUTransform.init ⟨true, false, true⟩ WebGPUTransform.new).1 =
      Except.error JSError.typeError := rfl

/-- **C2 (counterexample).** A `transform` call after `destroy` is not
fatal: on the concrete post-destroy state it returns normally, silently
closing the input frame and enqueuing nothing — exactly the tolerated
no-op path the claim rules out. -/
theorem transform_after_destroy_cex :
    WebGPUTransform.destroy initReadyState =
        Except.ok (destroyedState, [Action.destroyBuffer]) ∧
      WebGPUTransform.transform destroyedState frame0 1 =
        Except.ok (destroyedState, [Action.close frame0.id]) :=
  ⟨rfl, rfl⟩

/-- **C2 (amended).** After any successful `destroy`, `device_` is null,
so every subsequent `transform` call takes the disabled branch: it closes
the input frame, enqueues nothing, and returns normally — misuse after
destruction is silently tolerated, not fatal. -/
theorem transform_after_destroy_noop (s s' : WebGPUTransform)
    (acts : List Action) (h : WebGPUTransform.destroy s = Except.ok (s', acts))
    (frame : Frame) (freshId : Nat) :
    WebGPUTransform.transform s' frame freshId =
      Except.ok (s', [Action.close frame.id]) := by
  unfold WebGPUTransform.destroy at h
  cases hv : s.verticesBuffer_ with
  | none => rw [hv] at h; exact absurd h (by simp)
  | some b =>
    rw [hv] at h
    injection h with h1
    rw [Prod.mk.injEq] at h1
    obtain ⟨h2, h3⟩ := h1
    subst h2
    rfl

/-- Witness for `transform_after_destroy_noop`: the state after a
successful `init` and `destroy`, with a concrete frame. -/
theorem transform_after_destroy_noop_witness :
    WebGPUTransform.transform destroyedState frame0 1 =
      Except.ok (destroyedState, [Action.close frame0.id]) :=
  transform_after_destroy_noop initReadyState destroyedState
    [Action.destroyBuffer] rfl frame0 1

/-- **C1.** For every stage and every input frame, exactly one of
{enqueued to the sink, explicitly released via close} happens to the input
frame object before `transform` returns — never both, never neither — on
every path, including the disabled path.  For `WebGPUTransform` the
statement is made under the structural invariant `WebGPUInv` (device ⇒
context and pipeline), which — as the last three conjuncts show — holds
after construction and `init` and is preserved by `transform` and
`destroy`. -/
theorem frame_consumed_exactly_once :
    (∀ frame : Frame, consumeCount frame.id (NullTransform.transform frame) = 1)
    ∧ (∀ (frame : Frame) (rand : ℚ),
        consumeCount frame.id (DropTransform.transform frame rand) = 1)
    ∧ (∀ frame : Frame,
        consumeCount frame.id (DelayTransform.transform frame) = 1)
    ∧ (∀ (B : MathBuiltins) (s : CropTransform) (frame : Frame) (freshId : Nat),
        freshId ≠ frame.id →
        consumeCount frame.id (CropTransform.transform B s frame freshId).2 = 1)
    ∧ (∀ (s : WebGPUTransform) (frame : Frame) (freshId : Nat),
        WebGPUInv s → freshId ≠ frame.id →
        ∃ s' acts,
          WebGPUTransform.transform s frame freshId = Except.ok (s', acts) ∧
          consumeCount frame.id acts = 1)
    ∧ WebGPUInv WebGPUTransform.new
    ∧ (∀ env : GPUEnv, WebGPUInv (WebGPUTransform.init env WebGPUTransform.new).1)
    ∧ (∀ (s s' : WebGPUTransform) (frame : Frame) (freshId : Nat)
        (acts : List Action),
        WebGPUTransform.transform s frame freshId = Except.ok (s', acts) →
        WebGPUInv s → WebGPUInv s')
    ∧ (∀ (s s' : WebGPUTransform) (acts : List Action),
        WebGPUTransform.destroy s = Except.ok (s', acts) → WebGPUInv s') := by
  refine ⟨?_, ?_, ?_, ?_, ?_, ?_, ?_, ?_, ?_⟩
  · intro frame
    simp [consumeCount, consumes, NullTransform.transform]
  · intro frame rand
    unfold DropTransform.transform
    split <;> simp [consumeCount, consumes]
  · intro frame
    simp [consumeCount, consumes, DelayTransform.transform]
  · intro B s frame freshId hne
    simp [consumeCount, consumes, CropTransform.transform,
      CropTransform.croppedFrame, hne]
  · intro s frame freshId hInv hne
    obtain ⟨cv, cx, dv, rp, vb, sp⟩ := s
    cases dv with
    | none =>
      refine ⟨_, _, transform_disabled_eq _ frame freshId (Or.inl rfl), ?_⟩
      simp [consumeCount, consumes]
    | some dv =>
      cases cv with
      | none =>
        refine ⟨_, _, transform_disabled_eq _ frame freshId (Or.inr rfl), ?_⟩
        simp [consumeCount, consumes]
      | some cv =>
        obtain ⟨hcx, hrp⟩ := hInv (by simp)
        cases cx with
        | none => exact absurd hcx (by simp)
        | some cx =>
          cases rp with
          | none => exact absurd hrp (by simp)
          | some rp =>
            refine ⟨_, _, transform_enabled_eq cv cx dv rp vb sp frame freshId, ?_⟩
            unfold consumeCount
            rw [filter_count_append]
            by_cases h : needsResize cv frame = true <;>
              simp [consumes, outputFrame, h, hne]
  · intro h
    exact absurd h (by simp [WebGPUTransform.new])
  · intro env
    rcases env with ⟨c, a, d⟩
    cases c <;> cases a <;> cases d <;>
      simp [WebGPUInv, WebGPUTransform.init, WebGPUTransform.new]
  · intro s s' frame freshId acts h hInv
    obtain ⟨h1, h2, h3, _, _⟩ := transform_ok_fields s s' frame freshId acts h
    intro hd
    rw [h2] at hd
    rw [h1, h3]
    exact hInv hd
  · intro s s' acts h
    unfold WebGPUTransform.destroy at h
    cases hv : s.verticesBuffer_ with
    | none => rw [hv] at h; exact absurd h (by simp)
    | some b =>
      rw [hv] at h
      injection h with h1
      rw [Prod.mk.injEq] at h1
      obtain ⟨h2, h3⟩ := h1
      subst h2
      intro hd
      exact absurd hd (by simp)

/-- Witness for `frame_consumed_exactly_once`: its hypothesis-bearing
conjuncts applied at concrete inputs — the `CropTransform` conjunct with a
fresh id distinct from the frame's id, and the `WebGPUTransform` conjunct
on the state after a successful `init`. -/
theorem frame_consumed_exactly_once_witness :
    consumeCount frame0.id
        (CropTransform.transform ⟨fun x => x, fun x => x, 3⟩ CropTransform.new
          frame0 1).2 = 1
    ∧ ∃ s' acts,
        WebGPUTransform.transform initReadyState frame0 1 =
          Except.ok (s', acts) ∧
        consumeCount frame0.id acts = 1 :=
  ⟨frame_consumed_exactly_once.2.2.2.1 ⟨fun x => x, fun x => x, 3⟩
      CropTransform.new frame0 1 (by decide),
   frame_consumed_exactly_once.2.2.2.2.1 initReadyState frame0 1
      (by intro h; exact ⟨by decide, by decide⟩) (by decide)⟩

/-- **C5.** For every stage and every `transform` call, every frame the
call enqueues to the sink carries a timestamp equal to the input frame's
timestamp. -/
theorem output_timestamp_preserved :
    (∀ frame : Frame, ∀ f ∈ enqueuedFrames (NullTransform.transform frame),
      f.timestamp = frame.timestamp)
    ∧ (∀ (frame : Frame) (rand : ℚ),
        ∀ f ∈ enqueuedFrames (DropTransform.transform frame rand),
        f.timestamp = frame.timestamp)
    ∧ (∀ frame : Frame, ∀ f ∈ enqueuedFrames (DelayTransform.transform frame),
        f.timestamp = frame.timestamp)
    ∧ (∀ (B : MathBuiltins) (s : CropTransform) (frame : Frame) (freshId : Nat),
        ∀ f ∈ enqueuedFrames (CropTransform.transform B s frame freshId).2,
        f.timestamp = frame.timestamp)
    ∧ (∀ (s s' : WebGPUTransform) (frame : Frame) (freshId : Nat)
        (acts : List Action),
        WebGPUTransform.transform s frame freshId = Except.ok (s', acts) →
        ∀ f ∈ enqueuedFrames acts, f.timestamp = frame.timestamp) := by
  refine ⟨?_, ?_, ?_, ?_, ?_⟩
  · intro frame f hf
    simp [enqueuedFrames, NullTransform.transform] at hf
    rw [hf]
  · intro frame rand f hf
    unfold DropTransform.transform at hf
    split at hf <;> simp [enqueuedFrames] at hf
    rw [hf]
  · intro frame f hf
    simp [enqueuedFrames, DelayTransform.transform] at hf
    rw [hf]
  · intro B s frame freshId f hf
    simp [enqueuedFrames, CropTransform.transform] at hf
    rw [hf]
    rfl
  · intro s s' frame freshId acts h f hf
    obtain ⟨cv, cx, dv, rp, vb, sp⟩ := s
    cases dv with
    | none =>
      rw [transform_disabled_eq _ frame freshId (Or.inl rfl)] at h
      injection h with h1
      rw [Prod.mk.injEq] at h1
      rw [← h1.2] at hf
      simp [enqueuedFrames] at hf
    | some dv =>
      cases cv with
      | none =>
        rw [transform_disabled_eq _ frame freshId (Or.inr rfl)] at h
        injection h with h1
        rw [Prod.mk.injEq] at h1
        rw [← h1.2] at hf
        simp [enqueuedFrames] at hf
      | some cv =>
        cases cx with
        | none => exact absurd h (by simp [WebGPUTransform.transform])
        | some cx =>
          cases rp with
          | none => exact absurd h (by simp [WebGPUTransform.transform])
          | some rp =>
            rw [transform_enabled_eq] at h
            injection h with h1
            rw [Prod.mk.injEq] at h1
            rw [← h1.2] at hf
            rw [enqueuedFrames, List.filterMap_append] at hf
            rcases List.mem_append.mp hf with hf | hf
            · exact absurd hf (by split <;> simp)
            · simp at hf
              rw [hf]
              rfl

/-- Witness for `output_timestamp_preserved`: the `WebGPUTransform`
conjunct applied to the concrete run of `transform` on the ready state,
at the single frame that run enqueues. -/
theorem output_timestamp_preserved_witness :
    (outputFrame ⟨640, 480⟩ (0 : ℚ) 1).timestamp = frame0.timestamp :=
  output_timestamp_preserved.2.2.2.2 initReadyState
    ⟨some ⟨640, 480⟩, some GPUContext.handle, some GPUDevice.handle,
      some RenderPipeline.handle, some GPUBuffer.handle, some GPUSampler.handle⟩
    frame0 1
    ([Action.configure 640 480] ++
      [Action.createTexture 640 480, Action.copyToTexture, Action.closeBitmap,
       Action.close frame0.id, Action.submit,
       Action.enqueue (outputFrame ⟨640, 480⟩ (0 : ℚ) 1), Action.destroyTexture])
    (by rfl) (outputFrame ⟨640, 480⟩ (0 : ℚ) 1) (by simp [enqueuedFrames])

/-- **C4.** The surface is reconfigured if and only if the incoming
frame's display dimensions differ from the currently configured canvas
dimensions (and `transform` leaves the canvas at the frame's dimensions);
consequently, over any sequence of same-sized frames the surface is
reconfigured at most once. -/
theorem surface_reconfigure_iff :
    (∀ (cv : Canvas) (cx : GPUContext) (dv : GPUDevice) (rp : RenderPipeline)
      (vb : Option GPUBuffer) (sp : Option GPUSampler) (frame : Frame)
      (freshId : Nat) (s' : WebGPUTransform) (acts : List Action),
      WebGPUTransform.transform ⟨some cv, some cx, some dv, some rp, vb, sp⟩
          frame freshId = Except.ok (s', acts) →
      (configureCount acts =
        (if cv.width = frame.displayWidth ∧ cv.height = frame.displayHeight
         then 0 else 1))
      ∧ s'.canvas_ = some ⟨frame.displayWidth, frame.displayHeight⟩)
    ∧ (∀ (w h : Nat) (cv : Canvas) (cx : GPUContext) (dv : GPUDevice)
      (rp : RenderPipeline) (vb : Option GPUBuffer) (sp : Option GPUSampler)
      (frames : List (Frame × Nat)) (s' : WebGPUTransform) (acts : List Action),
      (∀ p ∈ frames, (p.1).displayWidth = w ∧ (p.1).displayHeight = h) →
      WebGPUTransform.run ⟨some cv, some cx, some dv, some rp, vb, sp⟩ frames =
        Except.ok (s', acts) →
      configureCount acts ≤ 1) := by
  constructor
  · intro cv cx dv rp vb sp frame freshId s' acts h
    obtain ⟨s'', acts'', heq, hcount, hs⟩ :=
      transform_configure_char cv cx dv rp vb sp frame freshId
    rw [heq] at h
    injection h with h1
    rw [Prod.mk.injEq] at h1
    obtain ⟨h2, h3⟩ := h1
    subst h2
    subst h3
    exact ⟨hcount, by rw [hs]⟩
  · intro w h cv cx dv rp vb sp frames s' acts hdims hrun
    cases frames with
    | nil =>
      unfold WebGPUTransform.run at hrun
      injection hrun with h1
      rw [Prod.mk.injEq] at h1
      rw [← h1.2]
      exact Nat.zero_le 1
    | cons p rest =>
      obtain ⟨f, fid⟩ := p
      obtain ⟨hw, hh⟩ := hdims (f, fid) (List.mem_cons_self _ _)
      obtain ⟨s1, acts1, heq, hcount1, hs1⟩ :=
        transform_configure_char cv cx dv rp vb sp f fid
      unfold WebGPUTransform.run at hrun
      rw [heq] at hrun
      rw [hw, hh] at hs1
      subst hs1
      dsimp only at hrun
      cases hrest : WebGPUTransform.run
          ⟨some ⟨w, h⟩, some cx, some dv, some rp, vb, sp⟩ rest with
      | error e => rw [hrest] at hrun; exact absurd hrun (by simp)
      | ok q =>
        obtain ⟨s2, acts2⟩ := q
        rw [hrest] at hrun
        dsimp only at hrun
        injection hrun with h1
        rw [Prod.mk.injEq] at h1
        rw [← h1.2]
        unfold configureCount
        rw [filter_count_append]
        have htail := run_same_size_zero w h rest cx dv rp vb sp s2 acts2
          (fun q hq => hdims q (List.mem_cons_of_mem _ hq)) hrest
        unfold configureCount at htail
        rw [htail, Nat.add_zero]
        unfold configureCount at hcount1
        rw [hcount1]
        split <;> simp

/-- The trace of one `transform` call on the freshly initialized 1×1
canvas with the 640×480 `frame0`. -/
def firstFrameActs : List Action :=
  [Action.configure 640 480, Action.createTexture 640 480,
   Action.copyToTexture, Action.closeBitmap, Action.close 0, Action.submit,
   Action.enqueue (outputFrame ⟨640, 480⟩ 0 1), Action.destroyTexture]

/-- Witness for `surface_reconfigure_iff`: both conjuncts at concrete
inputs — one `transform` call on the freshly initialized 1×1 canvas with a
640×480 frame (which reconfigures exactly once), and a one-element run of
that frame (at most one reconfiguration in total). -/
theorem surface_reconfigure_iff_witness :
    (configureCount firstFrameActs =
      (if (1 : Nat) = frame0.displayWidth ∧ (1 : Nat) = frame0.displayHeight
       then 0 else 1))
    ∧ configureCount firstFrameActs ≤ 1 :=
  ⟨(surface_reconfigure_iff.1 ⟨1, 1⟩ GPUContext.handle GPUDevice.handle
      RenderPipeline.handle (some GPUBuffer.handle) (some GPUSampler.handle)
      frame0 1
      ⟨some ⟨640, 480⟩, some GPUContext.handle, some GPUDevice.handle,
        some RenderPipeline.handle, some GPUBuffer.handle,
        some GPUSampler.handle⟩
      firstFrameActs rfl).1,
   surface_reconfigure_iff.2 640 480 ⟨1, 1⟩ GPUContext.handle GPUDevice.handle
      RenderPipeline.handle (some GPUBuffer.handle) (some GPUSampler.handle)
      [(frame0, 1)]
      ⟨some ⟨640, 480⟩, some GPUContext.handle, some GPUDevice.handle,
        some RenderPipeline.handle, some GPUBuffer.handle,
        some GPUSampler.handle⟩
      firstFrameActs (by decide) rfl⟩

/-- A 640×480 frame with the given timestamp and object id, for the
`CropTransform` scenarios. -/
def cropFrameAt (t : ℚ) (i : Nat) : Frame := ⟨i, t, 640, 480, ⟨0, 0, 640, 480⟩⟩

/-- Concrete `Math` builtins for the `CropTransform` scenarios. -/
def cropMathB : MathBuiltins := ⟨fun x => x, fun x => x, 3⟩

/-- **C7 (counterexample).** Feed frames with timestamps 0, 33333, 66667
(µs) to one `CropTransform` instance.  Because
`if (!this.firstTimestamp_)` treats a stored 0 as unset, the reference
timestamp for the third frame is 33333, not the first frame's 0: the
elapsed time used is 33334, not 66667 − 0. -/
theorem crop_elapsed_cex :
    (66667 : ℚ) - jsNumber
        ((CropTransform.transform cropMathB
          (CropTransform.run cropMathB CropTransform.new
            [(cropFrameAt 0 10, 20), (cropFrameAt 33333 11, 21)]).1
          (cropFrameAt 66667 12) 22).1.firstTimestamp_) = 33334
    ∧ ((33334 : ℚ) ≠ 66667 - 0) := by
  constructor
  · norm_num [CropTransform.transform, CropTransform.run, CropTransform.new,
      cropFrameAt, cropFirstTimestampUpdate, jsTruthy, jsNumber]
  · norm_num

/-- **C7 (amended).** For every sequence of frames fed to one
`CropTransform` instance, the elapsed time used for the next frame is its
timestamp minus the first *nonzero* timestamp observed so far (or minus 0
— equivalently the frame's own just-stored zero timestamp — while every
timestamp observed so far is zero), not necessarily minus the first
frame's timestamp. -/
theorem crop_elapsed_first_nonzero (B : MathBuiltins)
    (fs : List (Frame × Nat)) (f : Frame) (fid : Nat) :
    f.timestamp - jsNumber
        ((CropTransform.transform B (CropTransform.run B CropTransform.new fs).1
          f fid).1.firstTimestamp_) =
      f.timestamp -
        ((((fs.map fun p => p.1.timestamp) ++ [f.timestamp]).find?
          fun x => decide (x ≠ 0)).getD 0) := by
  have hrun : (CropTransform.run B CropTransform.new fs).1.firstTimestamp_ =
      (fs.map fun p => p.1.timestamp).foldl cropFirstTimestampUpdate none :=
    crop_run_state B fs CropTransform.new
  have hstate : (CropTransform.transform B
      (CropTransform.run B CropTransform.new fs).1 f fid).1.firstTimestamp_ =
      cropFirstTimestampUpdate
        ((CropTransform.run B CropTransform.new fs).1.firstTimestamp_)
        f.timestamp := rfl
  rw [hstate, hrun, crop_ft_char]
  rfl

/-- **C8.** For every input frame (and every stage state, i.e. every
elapsed time), `CropTransform.transform` enqueues exactly one frame, whose
visible-region width and height are exactly half the input frame's. -/
theorem crop_half_size (B : MathBuiltins) (s : CropTransform) (frame : Frame)
    (freshId : Nat) :
    ∃ cf, enqueuedFrames (CropTransform.transform B s frame freshId).2 = [cf]
      ∧ cf.visibleRegion.width = frame.visibleRegion.width / 2
      ∧ cf.visibleRegion.height = frame.visibleRegion.height / 2 :=
  ⟨_, rfl, rfl, rfl⟩

/-- **C9.** The fragment program's sampling coordinate is a deterministic
function of the interpolated UV position alone: two invocations agreeing
on `fragUV` — whatever their timestamps or frame indices — compute the
same sampling coordinate, for every interpretation of the numeric
builtins. -/
theorem fragment_uv_deterministic (B : ShaderBuiltins)
    (i1 i2 : FragmentInput) (h : i1.fragUV = i2.fragUV) :
    fragmentSampleCoord B i1 = fragmentSampleCoord B i2 := by
  unfold fragmentSampleCoord
  rw [h]

/-- Witness for `fragment_uv_deterministic`: two invocations with the
same UV but different timestamp and frame index. -/
theorem fragment_uv_deterministic_witness :
    fragmentSampleCoord ⟨fun _ => 0, fun _ => 0, fun _ _ => 0, fun _ _ => 0⟩
        ⟨(1/4, 1/4), 0, 0⟩ =
      fragmentSampleCoord ⟨fun _ => 0, fun _ => 0, fun _ _ => 0, fun _ _ => 0⟩
        ⟨(1/4, 1/4), 999, 7⟩ :=
  fragment_uv_deterministic ⟨fun _ => 0, fun _ => 0, fun _ _ => 0, fun _ _ => 0⟩
    ⟨(1/4, 1/4), 0, 0⟩ ⟨(1/4, 1/4), 999, 7⟩ rfl

end VideoProcessing
